import Mathlib

/-!
Shallow embedding of the Pinocchio vault program (deposit and withdraw
instructions) and verification of its specification.

The embedding mirrors `src/instructions/deposit.rs` and
`src/instructions/withdraw.rs`. Account handles are records exposing the
fields the handlers read; the derivation capability, the program identity
and the system-program identity are external collaborators and are bundled
in a `Runtime` record, so every statement is quantified over them.
-/

namespace PinocchioVault

/-- A byte, as in the `u8` of the source. -/
abbrev Byte := Fin 256

/-- A public key: the byte string of an address (`Pubkey` in the source). -/
abbrev Pubkey := List Byte

/-- The seed literal `b"vault"` used by both handlers: the ASCII bytes of
the word vault. -/
def vaultSeedLabel : List Byte := [118, 97, 117, 108, 116]

/-- The `ProgramError` variants the two handlers return. -/
inductive ProgramError where
  | NotEnoughAccountKeys
  | InvalidAccountOwner
  | InvalidAccountData
  | InvalidInstructionData
  deriving DecidableEq, Repr

/-- Model of `pinocchio::account_info::AccountInfo`, restricted to the
observations the handlers make: `key()`, `is_signer()`, the owning program
(read through `is_owned_by`) and `lamports()`. -/
structure AccountInfo where
  key : Pubkey
  is_signer : Bool
  owner : Pubkey
  lamports : Nat
  deriving DecidableEq, Repr

/-- Modelled from the spec: the external collaborators of the core.
`find_program_address` is the derivation capability (spec section 6:
deterministic and canonical, returning an address and a bump byte);
`crateID` is the program identity `crate::ID` (declared outside the two
given source files); `systemID` is the custody authority
`pinocchio_system::ID`. A Lean function field is deterministic by
construction, which is exactly the canonicity the spec postulates. -/
structure Runtime where
  find_program_address : List (List Byte) → Pubkey → Pubkey × Byte
  crateID : Pubkey
  systemID : Pubkey

/-- The transfer request handed to the external transfer capability:
source, destination, amount, and the seed-derived signer proofs presented
with it (`invoke` passes none, `invoke_signed` passes one per signer). -/
structure TransferIx where
  from_key : Pubkey
  to_key : Pubkey
  lamports : Nat
  signer_seeds : List (List (List Byte))
  deriving DecidableEq, Repr

/-! ## Deposit: `src/instructions/deposit.rs` -/

/-- `DepositAccounts`: the validated accounts of the deposit handler. -/
structure DepositAccounts where
  owner : AccountInfo
  vault : AccountInfo
  deriving DecidableEq, Repr

/-- `DepositAccounts::try_from`, line for line: destructure into
`[owner, vault, _]` else `NotEnoughAccountKeys`; owner must be a signer
else `InvalidAccountOwner`; the vault must be owned by
`pinocchio_system::ID` else `InvalidAccountOwner`; the vault lamports must
equal 0 else `InvalidAccountData`; the vault key must equal the address
derived from `[b"vault", owner.key()]` under `crate::ID` else
`InvalidAccountOwner`. -/
def DepositAccounts.tryFrom (rt : Runtime) (accounts : List AccountInfo) :
    Except ProgramError DepositAccounts :=
  match accounts with
  | [owner, vault, _] =>
    if !owner.is_signer then
      .error .InvalidAccountOwner
    else if vault.owner ≠ rt.systemID then
      .error .InvalidAccountOwner
    else if vault.lamports ≠ 0 then
      .error .InvalidAccountData
    else
      let vault_key := (rt.find_program_address [vaultSeedLabel, owner.key] rt.crateID).1
      if vault.key ≠ vault_key then
        .error .InvalidAccountOwner
      else
        .ok { owner := owner, vault := vault }
  | _ => .error .NotEnoughAccountKeys

/-- `u64::from_le_bytes`: the unsigned little-endian value of a byte
string (the first byte is least significant). -/
def u64_from_le_bytes : List Byte → Nat
  | [] => 0
  | b :: rest => b.val + 256 * u64_from_le_bytes rest

/-- `DepositInstructionData`: the decoded instruction payload. -/
structure DepositInstructionData where
  amount : Nat
  deriving DecidableEq, Repr

/-- `DepositInstructionData::try_from`: the payload must be exactly
`size_of::<u64>() = 8` bytes else `InvalidInstructionData`; the amount is
its little-endian value; the amount must not be 0 else
`InvalidInstructionData`. -/
def DepositInstructionData.tryFrom (data : List Byte) :
    Except ProgramError DepositInstructionData :=
  if data.length ≠ 8 then
    .error .InvalidInstructionData
  else
    let amount := u64_from_le_bytes data
    if amount = 0 then
      .error .InvalidInstructionData
    else
      .ok { amount := amount }

/-- The `data.try_into()` step of the decoder: converting the slice to a
fixed `[u8; 8]` array succeeds exactly when the slice has length 8. -/
def sliceTryInto8 (bs : List Byte) : Option { l : List Byte // l.length = 8 } :=
  if h : bs.length = 8 then some ⟨bs, h⟩ else none

/-- Outcome of the payload decoder with the panic of `unwrap` made
explicit: `panicked` is the branch the Rust code would reach only if
`try_into` failed after the length check. -/
inductive CodecOutcome where
  | ok (d : DepositInstructionData)
  | err (e : ProgramError)
  | panicked
  deriving DecidableEq, Repr

/-- Whether the outcome is the panic branch. -/
def CodecOutcome.isPanic : CodecOutcome → Bool
  | .panicked => true
  | _ => false

/-- `DepositInstructionData::try_from` with the `unwrap` on
`data.try_into()` modelled explicitly instead of assumed away: the
`panicked` outcome stands for the panic of `unwrap` on a failed
conversion. -/
def depositDataDecode (data : List Byte) : CodecOutcome :=
  if data.length ≠ 8 then
    .err .InvalidInstructionData
  else
    match sliceTryInto8 data with
    | none => .panicked
    | some arr =>
      let amount := u64_from_le_bytes arr.1
      if amount = 0 then
        .err .InvalidInstructionData
      else
        .ok { amount := amount }

/-- `Deposit`: validated accounts plus decoded payload. -/
structure Deposit where
  accounts : DepositAccounts
  instruction_data : DepositInstructionData
  deriving DecidableEq, Repr

/-- `Deposit::try_from((data, accounts))`: parse the accounts first, then
the payload, propagating the first error (the `?` operator). -/
def Deposit.tryFrom (rt : Runtime) (data : List Byte)
    (accounts : List AccountInfo) : Except ProgramError Deposit :=
  match DepositAccounts.tryFrom rt accounts with
  | .error e => .error e
  | .ok accs =>
    match DepositInstructionData.tryFrom data with
    | .error e => .error e
    | .ok d => .ok { accounts := accs, instruction_data := d }

/-- `Deposit::process`: invoke the system transfer of `amount` lamports
from the owner to the vault, with no seed-derived signers (the owner is a
real signer). -/
def Deposit.process (d : Deposit) : TransferIx :=
  { from_key := d.accounts.owner.key
    to_key := d.accounts.vault.key
    lamports := d.instruction_data.amount
    signer_seeds := [] }

/-- The whole deposit handler: `Deposit::try_from` then `process`,
returning the transfer request it hands to the transfer capability. -/
def runDeposit (rt : Runtime) (data : List Byte)
    (accounts : List AccountInfo) : Except ProgramError TransferIx :=
  (Deposit.tryFrom rt data accounts).map Deposit.process

/-! ## Withdraw: `src/instructions/withdraw.rs` -/

/-- `WithdrawAccounts`: the validated accounts of the withdraw handler,
with the derivation bump saved as the one-byte array `bumps`. -/
structure WithdrawAccounts where
  owner : AccountInfo
  vault : AccountInfo
  bumps : List Byte
  deriving DecidableEq, Repr

/-- `WithdrawAccounts::try_from`, line for line: destructure into
`[owner, vault, _]` else `NotEnoughAccountKeys`; owner must be a signer
else `InvalidAccountOwner`; the vault must be owned by
`pinocchio_system::ID` else `InvalidAccountOwner`; the vault lamports must
not equal 0 else `InvalidAccountData`; the derived address must equal the
vault key else `InvalidAccountOwner`; on success keep the bump. -/
def WithdrawAccounts.tryFrom (rt : Runtime) (accounts : List AccountInfo) :
    Except ProgramError WithdrawAccounts :=
  match accounts with
  | [owner, vault, _] =>
    if !owner.is_signer then
      .error .InvalidAccountOwner
    else if vault.owner ≠ rt.systemID then
      .error .InvalidAccountOwner
    else if vault.lamports = 0 then
      .error .InvalidAccountData
    else
      let vb := rt.find_program_address [vaultSeedLabel, owner.key] rt.crateID
      if vb.1 ≠ vault.key then
        .error .InvalidAccountOwner
      else
        .ok { owner := owner, vault := vault, bumps := [vb.2] }
  | _ => .error .NotEnoughAccountKeys

/-- `Withdraw`: the validated accounts (the withdraw instruction has no
payload). -/
structure Withdraw where
  accounts : WithdrawAccounts
  deriving DecidableEq, Repr

/-- `Withdraw::try_from(accounts)`: parse the accounts only. -/
def Withdraw.tryFrom (rt : Runtime) (accounts : List AccountInfo) :
    Except ProgramError Withdraw :=
  match WithdrawAccounts.tryFrom rt accounts with
  | .error e => .error e
  | .ok accs => .ok { accounts := accs }

/-- `Withdraw::process`: build the seeds `[b"vault", owner key, bumps]`,
wrap them as the one signer proof, and invoke the system transfer of the
entire vault balance from the vault to the owner with that proof. -/
def Withdraw.process (w : Withdraw) : TransferIx :=
  { from_key := w.accounts.vault.key
    to_key := w.accounts.owner.key
    lamports := w.accounts.vault.lamports
    signer_seeds := [[vaultSeedLabel, w.accounts.owner.key, w.accounts.bumps]] }

/-- The whole withdraw handler: `Withdraw::try_from` then `process`,
returning the transfer request it hands to the transfer capability. -/
def runWithdraw (rt : Runtime) (accounts : List AccountInfo) :
    Except ProgramError TransferIx :=
  (Withdraw.tryFrom rt accounts).map Withdraw.process

/-! ## Balance semantics of the external transfer capability -/

/-- Effect of an executed transfer on one account: the source is debited,
the destination is credited (debit first, as the system program does, so a
transfer from an account to itself leaves the balance unchanged). -/
def applyTransfer (t : TransferIx) (a : AccountInfo) : AccountInfo :=
  let a1 :=
    if a.key = t.from_key then { a with lamports := a.lamports - t.lamports } else a
  if a1.key = t.to_key then { a1 with lamports := a1.lamports + t.lamports } else a1

/-- The transfers the deposit handler hands to the transfer capability:
none on any validation failure, exactly one after full validation. -/
def depositInvokedTransfers (rt : Runtime) (data : List Byte)
    (accounts : List AccountInfo) : List TransferIx :=
  match runDeposit rt data accounts with
  | .error _ => []
  | .ok t => [t]

/-- The transfers the withdraw handler hands to the transfer capability. -/
def withdrawInvokedTransfers (rt : Runtime) (accounts : List AccountInfo) :
    List TransferIx :=
  match runWithdraw rt accounts with
  | .error _ => []
  | .ok t => [t]

/-- The account list after a deposit request: unchanged on failure, with
the invoked transfer applied on success. -/
def afterDeposit (rt : Runtime) (data : List Byte)
    (accounts : List AccountInfo) : List AccountInfo :=
  (depositInvokedTransfers rt data accounts).foldl
    (fun accts t => accts.map (applyTransfer t)) accounts

/-- The account list after a withdraw request: unchanged on failure, with
the invoked transfer applied on success. -/
def afterWithdraw (rt : Runtime) (accounts : List AccountInfo) :
    List AccountInfo :=
  (withdrawInvokedTransfers rt accounts).foldl
    (fun accts t => accts.map (applyTransfer t)) accounts

/-- The address derivation exactly as the deposit handler performs it
(deposit.rs line 55). -/
def depositVaultDerivation (rt : Runtime) (ownerKey : Pubkey) : Pubkey × Byte :=
  rt.find_program_address [vaultSeedLabel, ownerKey] rt.crateID

/-- The address derivation exactly as the withdraw handler performs it
(withdraw.rs line 53). -/
def withdrawVaultDerivation (rt : Runtime) (ownerKey : Pubkey) : Pubkey × Byte :=
  rt.find_program_address [vaultSeedLabel, ownerKey] rt.crateID

/-- The error of a handler result, if any. -/
def errorOf {α : Type} : Except ProgramError α → Option ProgramError
  | .error e => some e
  | .ok _ => none

/-- Whether a handler result is a success. -/
def isOk {α : Type} : Except ProgramError α → Bool
  | .ok _ => true
  | .error _ => false

/-- Modelled from the spec (section 4.2, validation sequence): the error
of the earliest failing deposit check in the order account-count,
owner-is-signer, vault controlling authority, vault balance equals 0,
derived-address match, payload length, non-zero amount; `none` when every
check passes. Each abstract error of the taxonomy is written as the
`ProgramError` the code maps it to. -/
def depositOrderedError (rt : Runtime) (accounts : List AccountInfo)
    (data : List Byte) : Option ProgramError :=
  match accounts with
  | [owner, vault, _] =>
    if ¬(owner.is_signer = true) then some .InvalidAccountOwner
    else if ¬(vault.owner = rt.systemID) then some .InvalidAccountOwner
    else if ¬(vault.lamports = 0) then some .InvalidAccountData
    else if ¬(vault.key =
        (rt.find_program_address [vaultSeedLabel, owner.key] rt.crateID).1) then
      some .InvalidAccountOwner
    else if ¬(data.length = 8) then some .InvalidInstructionData
    else if ¬(0 < u64_from_le_bytes data) then some .InvalidInstructionData
    else none
  | _ => some .NotEnoughAccountKeys

/-! ## Concrete fixtures used by witnesses and counterexamples -/

/-- A concrete runtime: the derivation capability maps every seed list to
the address `[7]` with bump `42`. -/
def rtW : Runtime :=
  { find_program_address := fun _ _ => ([7], 42)
    crateID := [1]
    systemID := [2] }

/-- A concrete signing owner account. -/
def ownerW : AccountInfo :=
  { key := [3], is_signer := true, owner := [9], lamports := 100 }

/-- The same owner account with the signer flag cleared. -/
def ownerNoSignW : AccountInfo :=
  { key := [3], is_signer := false, owner := [9], lamports := 100 }

/-- A concrete empty vault at the derived address, owned by the custody
authority. -/
def vaultW : AccountInfo :=
  { key := [7], is_signer := false, owner := [2], lamports := 0 }

/-- The same vault holding 50 lamports. -/
def vaultFundedW : AccountInfo :=
  { key := [7], is_signer := false, owner := [2], lamports := 50 }

/-- The empty vault with a wrong controlling authority. -/
def vaultWrongAuthW : AccountInfo :=
  { key := [7], is_signer := false, owner := [9], lamports := 0 }

/-- An empty system-owned account whose key is not the derived address. -/
def vaultBadKeyW : AccountInfo :=
  { key := [8], is_signer := false, owner := [2], lamports := 0 }

/-- A concrete third account (ignored by the handlers). -/
def extraW : AccountInfo :=
  { key := [4], is_signer := false, owner := [2], lamports := 0 }

/-- An 8-byte payload encoding the amount 1. -/
def dataW : List Byte := [1, 0, 0, 0, 0, 0, 0, 0]

/-- A 7-byte payload. -/
def dataShortW : List Byte := [1, 0, 0, 0, 0, 0, 0]

/-- An 8-byte payload encoding the amount 0. -/
def dataZeroW : List Byte := [0, 0, 0, 0, 0, 0, 0, 0]

/-- The transfer request of the successful concrete deposit. -/
def depositOkW : TransferIx :=
  { from_key := [3], to_key := [7], lamports := 1, signer_seeds := [] }

/-- The transfer request of the successful concrete withdraw. -/
def withdrawOkW : TransferIx :=
  { from_key := [7], to_key := [3], lamports := 50,
    signer_seeds := [[vaultSeedLabel, [3], [42]]] }

/-! ## Theorems for the claims -/

/-- C1: for an account list of the expected shape, the Deposit handler
succeeds if and only if the owner signs, the vault is owned by the custody
authority, the vault balance equals 0, the vault key equals the address
derived from the seeds vault-label and owner key under the program
identity, the payload has exactly 8 bytes and its little-endian value is
greater than 0; on success the invoked transfer moves exactly the decoded
amount from the owner to the vault, with no delegated signer. -/
theorem deposit_success_iff (rt : Runtime) (o v e : AccountInfo) (data : List Byte) :
    (isOk (runDeposit rt data [o, v, e]) = true ↔
      (o.is_signer = true ∧ v.owner = rt.systemID ∧ v.lamports = 0 ∧
        v.key = (rt.find_program_address [vaultSeedLabel, o.key] rt.crateID).1 ∧
        data.length = 8 ∧ 0 < u64_from_le_bytes data)) ∧
    (∀ t, runDeposit rt data [o, v, e] = .ok t →
      t.from_key = o.key ∧ t.to_key = v.key ∧
      t.lamports = u64_from_le_bytes data ∧ t.signer_seeds = []) := by
  constructor
  · simp only [runDeposit, Deposit.tryFrom, DepositAccounts.tryFrom,
      DepositInstructionData.tryFrom]
    split_ifs with h1 h2 h3 h4 h5 h6 <;>
      simp_all [isOk, Except.map, Nat.pos_iff_ne_zero]
  · intro t ht
    simp only [runDeposit, Deposit.tryFrom, DepositAccounts.tryFrom,
      DepositInstructionData.tryFrom] at ht
    split_ifs at ht <;> simp_all [Except.map, Deposit.process]
    subst ht
    exact ⟨rfl, rfl, rfl, rfl⟩

/-- C1 witness: the concrete deposit request with every precondition
satisfied succeeds, and its transfer has the stated shape. -/
theorem deposit_success_iff_witness :
    isOk (runDeposit rtW dataW [ownerW, vaultW, extraW]) = true ∧
    depositOkW.from_key = ownerW.key ∧ depositOkW.to_key = vaultW.key ∧
    depositOkW.lamports = u64_from_le_bytes dataW ∧
    depositOkW.signer_seeds = [] := by
  refine ⟨(deposit_success_iff rtW ownerW vaultW extraW dataW).1.mpr (by decide), ?_⟩
  exact (deposit_success_iff rtW ownerW vaultW extraW dataW).2 depositOkW rfl

/-- C2: for an account list of the expected shape, the Withdraw handler
succeeds if and only if the owner signs, the vault is owned by the custody
authority, the vault balance is greater than 0, and the derived address
equals the vault key; on success the invoked transfer moves the entire
current vault balance from the vault to the owner, which leaves the vault
balance at 0 whenever owner and vault are distinct accounts. -/
theorem withdraw_success_iff (rt : Runtime) (o v e : AccountInfo) :
    (isOk (runWithdraw rt [o, v, e]) = true ↔
      (o.is_signer = true ∧ v.owner = rt.systemID ∧ 0 < v.lamports ∧
        (rt.find_program_address [vaultSeedLabel, o.key] rt.crateID).1 = v.key)) ∧
    (∀ t, runWithdraw rt [o, v, e] = .ok t →
      t.from_key = v.key ∧ t.to_key = o.key ∧ t.lamports = v.lamports ∧
      (o.key ≠ v.key → (applyTransfer t v).lamports = 0)) := by
  constructor
  · simp only [runWithdraw, Withdraw.tryFrom, WithdrawAccounts.tryFrom]
    split_ifs with h1 h2 h3 h4 <;>
      simp_all [isOk, Except.map, Nat.pos_iff_ne_zero]
  · intro t ht
    simp only [runWithdraw, Withdraw.tryFrom, WithdrawAccounts.tryFrom] at ht
    split_ifs at ht <;> simp_all [Except.map, Withdraw.process]
    subst ht
    refine ⟨rfl, rfl, rfl, ?_⟩
    intro hne
    simp [applyTransfer, Ne.symm hne, Nat.sub_self]

/-- C2 witness: the concrete withdraw request with every precondition
satisfied succeeds and leaves the vault balance at 0. -/
theorem withdraw_success_iff_witness :
    isOk (runWithdraw rtW [ownerW, vaultFundedW, extraW]) = true ∧
    (applyTransfer withdrawOkW vaultFundedW).lamports = 0 := by
  refine ⟨(withdraw_success_iff rtW ownerW vaultFundedW extraW).1.mpr (by decide), ?_⟩
  exact ((withdraw_success_iff rtW ownerW vaultFundedW extraW).2
    withdrawOkW rfl).2.2.2 (by decide)

/-- C4: whenever any validation check of a handler fails, the handler
returns an error, hands no transfer to the transfer capability, and the
account balances are unchanged: the transfer is built only from a fully
validated request. -/
theorem no_transfer_on_validation_failure (rt : Runtime) (data : List Byte)
    (accounts : List AccountInfo) :
    (∀ e, runDeposit rt data accounts = .error e →
      depositInvokedTransfers rt data accounts = [] ∧
      afterDeposit rt data accounts = accounts) ∧
    (∀ e, runWithdraw rt accounts = .error e →
      withdrawInvokedTransfers rt accounts = [] ∧
      afterWithdraw rt accounts = accounts) := by
  constructor <;> intro e he <;>
    simp [depositInvokedTransfers, withdrawInvokedTransfers,
      afterDeposit, afterWithdraw, he]

/-- C4 witness: the concrete requests rejected for a missing signer leave
the account lists untouched and invoke no transfer. -/
theorem no_transfer_on_validation_failure_witness :
    (depositInvokedTransfers rtW dataW [ownerNoSignW, vaultW, extraW] = [] ∧
      afterDeposit rtW dataW [ownerNoSignW, vaultW, extraW] =
        [ownerNoSignW, vaultW, extraW]) ∧
    (withdrawInvokedTransfers rtW [ownerNoSignW, vaultFundedW, extraW] = [] ∧
      afterWithdraw rtW [ownerNoSignW, vaultFundedW, extraW] =
        [ownerNoSignW, vaultFundedW, extraW]) :=
  ⟨(no_transfer_on_validation_failure rtW dataW
      [ownerNoSignW, vaultW, extraW]).1 .InvalidAccountOwner rfl,
   (no_transfer_on_validation_failure rtW dataW
      [ownerNoSignW, vaultFundedW, extraW]).2 .InvalidAccountOwner rfl⟩

/-- C5: the error of the deposit handler is always the error of the
earliest failing check in the order account-count, owner-is-signer, vault
controlling authority, vault balance equals 0, derived-address match,
payload length, non-zero amount: the handler agrees everywhere with the
fail-fast reference `depositOrderedError` written from that order, so in
particular every account check runs before any payload check. -/
theorem deposit_fail_fast_order (rt : Runtime) (accounts : List AccountInfo)
    (data : List Byte) :
    errorOf (runDeposit rt data accounts) = depositOrderedError rt accounts data := by
  rcases accounts with _ | ⟨a, _ | ⟨b, _ | ⟨c, _ | ⟨d, rest⟩⟩⟩⟩
  · rfl
  · rfl
  · rfl
  · simp only [runDeposit, Deposit.tryFrom, DepositAccounts.tryFrom,
      DepositInstructionData.tryFrom, depositOrderedError]
    split_ifs <;> simp_all [errorOf, Except.map, Nat.pos_iff_ne_zero]
  · rfl

/-- C9: any account list that is not exactly the expected three-account
shape makes both handlers fail with the account-shape error
`NotEnoughAccountKeys`, whatever the accounts and the payload contain. -/
theorem account_shape_mismatch_error (rt : Runtime) (data : List Byte)
    (accounts : List AccountInfo) (h : accounts.length ≠ 3) :
    runDeposit rt data accounts = .error .NotEnoughAccountKeys ∧
    runWithdraw rt accounts = .error .NotEnoughAccountKeys := by
  rcases accounts with _ | ⟨a, _ | ⟨b, _ | ⟨c, _ | ⟨d, rest⟩⟩⟩⟩
  · exact ⟨rfl, rfl⟩
  · exact ⟨rfl, rfl⟩
  · exact ⟨rfl, rfl⟩
  · exact absurd rfl h
  · exact ⟨rfl, rfl⟩

/-- C9 witness: a one-account list is rejected by both handlers with
`NotEnoughAccountKeys`. -/
theorem account_shape_mismatch_error_witness :
    runDeposit rtW dataW [ownerW] = .error .NotEnoughAccountKeys ∧
    runWithdraw rtW [ownerW] = .error .NotEnoughAccountKeys :=
  account_shape_mismatch_error rtW dataW [ownerW] (by decide)

/-- C6: the address derivation is deterministic and canonical (repeated
calls on the same owner key give the same address-and-bump pair, and the
derivation step of the deposit handler equals the derivation step of the
withdraw handler), and consequently a successful deposit and a successful
withdraw for the same owner key accept the same vault address. -/
theorem derivation_deterministic_and_shared (rt : Runtime) (k : Pubkey)
    (o o' v v' e e' : AccountInfo) (data : List Byte) :
    depositVaultDerivation rt k = depositVaultDerivation rt k ∧
    depositVaultDerivation rt k = withdrawVaultDerivation rt k ∧
    (o.key = o'.key →
      isOk (runDeposit rt data [o, v, e]) = true →
      isOk (runWithdraw rt [o', v', e']) = true →
      v.key = v'.key) := by
  refine ⟨rfl, rfl, ?_⟩
  intro hk hd hw
  simp only [runDeposit, Deposit.tryFrom, DepositAccounts.tryFrom,
    DepositInstructionData.tryFrom] at hd
  simp only [runWithdraw, Withdraw.tryFrom, WithdrawAccounts.tryFrom] at hw
  split_ifs at hd <;> split_ifs at hw <;> simp_all [isOk, Except.map]

/-- C6 witness: the concrete successful deposit and withdraw for the same
owner use the same vault address. -/
theorem derivation_deterministic_and_shared_witness :
    vaultW.key = vaultFundedW.key :=
  (derivation_deterministic_and_shared rtW [3] ownerW ownerW vaultW vaultFundedW
    extraW extraW dataW).2.2 rfl (by decide) (by decide)

/-- C7: every transfer a successful withdraw hands to the transfer
capability presents exactly one delegated-signer proof, built from the
vault seed label, the owner key bytes and the bump byte returned by the
derivation, with the vault (whose key is the derived address) as source
and the owner as destination. -/
theorem withdraw_signed_with_derivation_seeds (rt : Runtime) (o v e : AccountInfo)
    (t : TransferIx) (h : runWithdraw rt [o, v, e] = .ok t) :
    t.signer_seeds =
      [[vaultSeedLabel, o.key,
        [(rt.find_program_address [vaultSeedLabel, o.key] rt.crateID).2]]] ∧
    t.from_key = v.key ∧ t.to_key = o.key ∧
    v.key = (rt.find_program_address [vaultSeedLabel, o.key] rt.crateID).1 := by
  simp only [runWithdraw, Withdraw.tryFrom, WithdrawAccounts.tryFrom] at h
  split_ifs at h <;> simp_all [Except.map, Withdraw.process]
  subst h
  exact ⟨rfl, rfl, rfl⟩

/-- C7 witness: the concrete successful withdraw presents the proof built
from the seed label, the owner key and the bump 42, from the vault to the
owner. -/
theorem withdraw_signed_with_derivation_seeds_witness :
    withdrawOkW.signer_seeds = [[vaultSeedLabel, [3], [42]]] ∧
    withdrawOkW.from_key = vaultFundedW.key ∧ withdrawOkW.to_key = ownerW.key := by
  have h := withdraw_signed_with_derivation_seeds rtW ownerW vaultFundedW extraW
    withdrawOkW rfl
  exact ⟨h.1, h.2.1, h.2.2.1⟩

/-- C8: the payload codec rejects every payload whose length is not 8
with `InvalidInstructionData` (the MalformedInstructionData case of the
taxonomy); on an 8-byte payload it decodes the unsigned little-endian
value, rejects 0 with `InvalidInstructionData` (the ZeroAmount case), and
returns exactly that value otherwise. -/
theorem deposit_codec_characterization (data : List Byte) :
    (data.length ≠ 8 →
      DepositInstructionData.tryFrom data = .error .InvalidInstructionData) ∧
    (data.length = 8 → u64_from_le_bytes data = 0 →
      DepositInstructionData.tryFrom data = .error .InvalidInstructionData) ∧
    (data.length = 8 → 0 < u64_from_le_bytes data →
      DepositInstructionData.tryFrom data =
        .ok { amount := u64_from_le_bytes data }) := by
  refine ⟨?_, ?_, ?_⟩
  · intro h1
    simp [DepositInstructionData.tryFrom, h1]
  · intro h1 h2
    simp [DepositInstructionData.tryFrom, h1, h2]
  · intro h1 h2
    simp [DepositInstructionData.tryFrom, h1, Nat.pos_iff_ne_zero.mp h2]

/-- C8 witness: a 7-byte payload and the zero payload are rejected, and
the payload encoding 1 decodes to the amount 1. -/
theorem deposit_codec_characterization_witness :
    DepositInstructionData.tryFrom dataShortW = .error .InvalidInstructionData ∧
    DepositInstructionData.tryFrom dataZeroW = .error .InvalidInstructionData ∧
    DepositInstructionData.tryFrom dataW = .ok { amount := 1 } := by
  refine ⟨(deposit_codec_characterization dataShortW).1 (by decide),
    (deposit_codec_characterization dataZeroW).2.1 (by decide) (by decide), ?_⟩
  exact (deposit_codec_characterization dataW).2.2 (by decide) (by decide)

/-- C10: the payload decoder never reaches the panic of the `unwrap`: on
every byte sequence the decode outcome is a value or an error, because
under the length precondition the slice-to-array conversion always
succeeds. -/
theorem deposit_codec_never_panics (data : List Byte) :
    (depositDataDecode data).isPanic = false ∧
    (data.length = 8 → (sliceTryInto8 data).isSome = true) := by
  constructor
  · simp only [depositDataDecode, sliceTryInto8]
    split_ifs <;> simp_all [CodecOutcome.isPanic]
    split_ifs <;> rfl
  · intro h
    simp [sliceTryInto8, h]

/-- C10 witness: on the concrete 8-byte payload the decoder does not
panic and the conversion succeeds. -/
theorem deposit_codec_never_panics_witness :
    (depositDataDecode dataW).isPanic = false ∧
    (sliceTryInto8 dataW).isSome = true :=
  ⟨(deposit_codec_never_panics dataW).1,
   (deposit_codec_never_panics dataW).2 (by decide)⟩

/-- C3 counterexample: five concrete requests, each violating exactly one
precondition while every other one holds — missing signer, wrong vault
controlling authority, derived-address mismatch, wrong payload length,
zero amount — are rejected, but the first three all yield the same error
`InvalidAccountOwner` and the last two both yield the same error
`InvalidInstructionData`: the errors for distinct preconditions are not
distinct, contrary to the claim. -/
theorem distinct_precondition_errors_collide :
    runDeposit rtW dataW [ownerNoSignW, vaultW, extraW] =
      .error .InvalidAccountOwner ∧
    runDeposit rtW dataW [ownerW, vaultWrongAuthW, extraW] =
      .error .InvalidAccountOwner ∧
    runDeposit rtW dataW [ownerW, vaultBadKeyW, extraW] =
      .error .InvalidAccountOwner ∧
    runDeposit rtW dataShortW [ownerW, vaultW, extraW] =
      .error .InvalidInstructionData ∧
    runDeposit rtW dataZeroW [ownerW, vaultW, extraW] =
      .error .InvalidInstructionData :=
  ⟨rfl, rfl, rfl, rfl, rfl⟩

/-- C3 amended: when exactly one precondition is violated while all
others hold, each handler returns the specific `ProgramError` the code
maps that precondition to — `InvalidAccountOwner` for a missing signer,
for a wrong vault controlling authority and for a derived-address
mismatch, `InvalidInstructionData` for a wrong payload length and for a
zero amount — so the conditions are reported specifically but the errors
of distinct preconditions are not all distinct. -/
theorem single_violation_error_map (rt : Runtime) (o v e : AccountInfo)
    (data : List Byte) :
    (o.is_signer = false → v.owner = rt.systemID → v.lamports = 0 →
      v.key = (rt.find_program_address [vaultSeedLabel, o.key] rt.crateID).1 →
      data.length = 8 → 0 < u64_from_le_bytes data →
      runDeposit rt data [o, v, e] = .error .InvalidAccountOwner) ∧
    (o.is_signer = true → v.owner ≠ rt.systemID → v.lamports = 0 →
      v.key = (rt.find_program_address [vaultSeedLabel, o.key] rt.crateID).1 →
      data.length = 8 → 0 < u64_from_le_bytes data →
      runDeposit rt data [o, v, e] = .error .InvalidAccountOwner) ∧
    (o.is_signer = true → v.owner = rt.systemID → v.lamports = 0 →
      v.key ≠ (rt.find_program_address [vaultSeedLabel, o.key] rt.crateID).1 →
      data.length = 8 → 0 < u64_from_le_bytes data →
      runDeposit rt data [o, v, e] = .error .InvalidAccountOwner) ∧
    (o.is_signer = true → v.owner = rt.systemID → v.lamports = 0 →
      v.key = (rt.find_program_address [vaultSeedLabel, o.key] rt.crateID).1 →
      data.length ≠ 8 →
      runDeposit rt data [o, v, e] = .error .InvalidInstructionData) ∧
    (o.is_signer = true → v.owner = rt.systemID → v.lamports = 0 →
      v.key = (rt.find_program_address [vaultSeedLabel, o.key] rt.crateID).1 →
      data.length = 8 → u64_from_le_bytes data = 0 →
      runDeposit rt data [o, v, e] = .error .InvalidInstructionData) ∧
    (o.is_signer = false → v.owner = rt.systemID → 0 < v.lamports →
      (rt.find_program_address [vaultSeedLabel, o.key] rt.crateID).1 = v.key →
      runWithdraw rt [o, v, e] = .error .InvalidAccountOwner) ∧
    (o.is_signer = true → v.owner ≠ rt.systemID → 0 < v.lamports →
      (rt.find_program_address [vaultSeedLabel, o.key] rt.crateID).1 = v.key →
      runWithdraw rt [o, v, e] = .error .InvalidAccountOwner) ∧
    (o.is_signer = true → v.owner = rt.systemID → 0 < v.lamports →
      (rt.find_program_address [vaultSeedLabel, o.key] rt.crateID).1 ≠ v.key →
      runWithdraw rt [o, v, e] = .error .InvalidAccountOwner) := by
  refine ⟨?_, ?_, ?_, ?_, ?_, ?_, ?_, ?_⟩ <;>
    intro h1 h2 h3 h4 <;> (try intro h5) <;> (try intro h6) <;>
    simp_all [runDeposit, runWithdraw, Deposit.tryFrom, Withdraw.tryFrom,
      DepositAccounts.tryFrom, WithdrawAccounts.tryFrom,
      DepositInstructionData.tryFrom, Except.map, Nat.pos_iff_ne_zero]

/-- C3 amended witness: the concrete deposit whose only violated
precondition is the signer flag fails with `InvalidAccountOwner`. -/
theorem single_violation_error_map_witness :
    runDeposit rtW dataW [ownerNoSignW, vaultW, extraW] =
      .error .InvalidAccountOwner :=
  (single_violation_error_map rtW ownerNoSignW vaultW extraW dataW).1
    rfl (by decide) (by decide) (by decide) (by decide) (by decide)

end PinocchioVault
